import Mathlib

/-!
Verification of the endlessmewscroller repository.

Part A embeds the Cloudflare Pages Function `functions/api/cats.js`
(the request proxy) as pure Lean functions over an explicit model of
the incoming request and of the upstream (TheCatAPI) response.

Part B embeds the client-side engine.  Its canonical implementation
lives in `index.html`; the repository documentation quotes the
decisive fragments (the `cleanupOldImages` body, the configuration
constants, the dynamic batch-size formula) and describes the control
flow, which we model accordingly.
-/

namespace EndlessMew

/-! ## Part A: functions/api/cats.js -/

/-- A request as seen by onRequest: the HTTP method and the value of the
query parameter named limit (none when the parameter is absent). -/
structure Request where
  method : String
  limitParam : Option String
deriving DecidableEq

deriving instance DecidableEq for Except

/-- The upstream fetch response observed by onRequest: its HTTP status,
its Retry-After header (none when absent), the text of its body
(empty string when reading the body failed), and the result of parsing
the body as JSON (ok carries the parsed payload serialized back by
JSON.stringify, error carries the exception message). -/
structure UpstreamResponse where
  status : Nat
  retryAfter : Option String
  bodyText : String
  jsonResult : Except String String
deriving DecidableEq

/-- The outcome of `await fetch(apiUrl, ...)`: either a resolved response
or a rejected promise (network error) with its message. -/
inductive UpstreamResult
  | ok (r : UpstreamResponse)
  | netError (msg : String)
deriving DecidableEq

/-- response.ok: status in the inclusive range 200-299. -/
def respOk (r : UpstreamResponse) : Bool :=
  decide (200 ≤ r.status) && decide (r.status < 300)

/-- A response body: null, a JSON object written as an ordered field list,
or a raw JSON string passed through from upstream. -/
inductive Body
  | empty
  | obj (fields : List (String × String))
  | raw (s : String)
deriving DecidableEq

/-- A Response produced by onRequest. -/
structure Response where
  status : Nat
  body : Body
  headers : List (String × String)
deriving DecidableEq

/-- The observable outcome of one onRequest call: the Response returned,
and the limit forwarded to the upstream fetch (none when no upstream
fetch was performed). -/
structure Outcome where
  response : Response
  upstreamLimit : Option Int
deriving DecidableEq

/-- CORS_HEADERS from cats.js lines 9-14. -/
def CORS_HEADERS : List (String × String) :=
  [("Content-Type", "application/json"),
   ("Access-Control-Allow-Origin", "*"),
   ("Access-Control-Allow-Methods", "GET, OPTIONS"),
   ("Access-Control-Allow-Headers", "Content-Type")]

/-- Value of a character as a digit in the given base, as JavaScript
parseInt accepts it (0-9, a-z, A-Z, only when below the base). -/
def digitValue (base : Nat) (c : Char) : Option Nat :=
  let v : Option Nat :=
    if decide (('0' : Char) ≤ c) && decide (c ≤ ('9' : Char)) then
      some (c.toNat - ('0' : Char).toNat)
    else if decide (('a' : Char) ≤ c) && decide (c ≤ ('z' : Char)) then
      some (c.toNat - ('a' : Char).toNat + 10)
    else if decide (('A' : Char) ≤ c) && decide (c ≤ ('Z' : Char)) then
      some (c.toNat - ('A' : Char).toNat + 10)
    else none
  match v with
  | some d => if d < base then some d else none
  | none => none

/-- Consume leading digits of the given base; the accumulator is none
while no digit has been consumed (NaN), mirroring parseInt. -/
def parseDigits (base : Nat) : List Char → Option Nat → Option Nat
  | [], acc => acc
  | c :: cs, acc =>
      match digitValue base c with
      | some d => parseDigits base cs (some ((acc.getD 0) * base + d))
      | none => acc

/-- JavaScript whitespace skipped by parseInt (the forms relevant to a
query-string value). -/
def isJsWhitespace (c : Char) : Bool :=
  c == ' ' || c == '\t' || c == '\n' || c == '\r'

/-- JavaScript parseInt(s) with no radix argument: skip whitespace, read
an optional sign, honor a 0x/0X hexadecimal prefix, consume leading
digits; none models NaN (no digits consumed). -/
def parseIntJS (s : String) : Option Int :=
  let cs := s.toList.dropWhile isJsWhitespace
  let signed : Int × List Char :=
    match cs with
    | '-' :: rest => (-1, rest)
    | '+' :: rest => (1, rest)
    | _ => (1, cs)
  let based : Nat × List Char :=
    match signed.2 with
    | '0' :: 'x' :: rest => (16, rest)
    | '0' :: 'X' :: rest => (16, rest)
    | _ => (10, signed.2)
  match parseDigits based.1 based.2 none with
  | none => none
  | some n => some (signed.1 * (n : Int))

/-- url.searchParams.get('limit') || '10': the default applies when the
parameter is absent or is the empty string (falsy). -/
def limitOrDefault (p : Option String) : String :=
  match p with
  | none => "10"
  | some s => if s = "" then "10" else s

/-- Math.min(parseInt(url.searchParams.get('limit') || '10'), 100), from
cats.js line 37; none models NaN (Math.min(NaN, 100) is NaN). -/
def computeLimit (p : Option String) : Option Int :=
  match parseIntJS (limitOrDefault p) with
  | none => none
  | some v => some (min v 100)

/-- Embeds onRequest from functions/api/cats.js (lines 16-102).  The
upstream argument supplies the behaviour of the proxied fetch; it is
consulted only on the path that performs the fetch. -/
def onRequest (req : Request) (upstream : UpstreamResult) : Outcome :=
  if req.method = "OPTIONS" then
    ⟨⟨204, Body.empty, CORS_HEADERS⟩, none⟩
  else if req.method ≠ "GET" then
    ⟨⟨405, Body.obj [("error", "Method not allowed")], CORS_HEADERS⟩, none⟩
  else
    match computeLimit req.limitParam with
    | none =>
        ⟨⟨400, Body.obj [("error", "Invalid limit parameter")], CORS_HEADERS⟩, none⟩
    | some limit =>
        if limit < 1 then
          ⟨⟨400, Body.obj [("error", "Invalid limit parameter")], CORS_HEADERS⟩, none⟩
        else
          match upstream with
          | UpstreamResult.netError msg =>
              ⟨⟨500, Body.obj [("error", "Failed to fetch cat images"), ("message", msg)],
                CORS_HEADERS⟩, some limit⟩
          | UpstreamResult.ok r =>
              if respOk r then
                match r.jsonResult with
                | Except.ok cats =>
                    ⟨⟨200, Body.raw cats,
                      CORS_HEADERS ++ [("Cache-Control", "no-cache, no-store, must-revalidate")]⟩,
                      some limit⟩
                | Except.error msg =>
                    ⟨⟨500, Body.obj [("error", "Failed to fetch cat images"), ("message", msg)],
                      CORS_HEADERS⟩, some limit⟩
              else if r.status = 429 then
                ⟨⟨429, Body.obj
                    [("error", "Rate limit exceeded"),
                     ("message", "Too many requests to TheCatAPI. Please try again later.")],
                  CORS_HEADERS ++ [("Retry-After", r.retryAfter.getD "60")]⟩, some limit⟩
              else
                ⟨⟨500, Body.obj
                    [("error", "Failed to fetch cat images"),
                     ("message", "TheCatAPI returned " ++ toString r.status ++ ": " ++ r.bodyText)],
                  CORS_HEADERS⟩, some limit⟩

/-! ## Part B: the client engine (index.html) -/

/-- CONFIG.CLEANUP_THRESHOLD: pixels above the viewport beyond which a
rendered image is cleaned up. -/
def CLEANUP_THRESHOLD : Int := 2000

/-- estimatedImagesPerViewport = Math.ceil(window.innerHeight / 400),
quoted in the repository documentation of index.html. -/
def estimatedImagesPerViewport (innerHeight : Nat) : Nat :=
  (innerHeight + 399) / 400

/-- CONFIG.INITIAL_BATCH_SIZE = Math.max(estimatedImagesPerViewport * 2, 10),
quoted in the repository documentation of index.html. -/
def INITIAL_BATCH_SIZE (innerHeight : Nat) : Nat :=
  max (estimatedImagesPerViewport innerHeight * 2) 10

/-- A rendered image wrapper in the DOM: its image identifier (the
dataset imageId attribute) and its absolute top offset in pixels. -/
structure DomImage where
  imageId : String
  absoluteTop : Int
deriving DecidableEq

/-- The state touched by cleanupOldImages: the rendered wrappers in
document order, and STATE.loadedImageIds (the served-identifier set,
modelled as a duplicate-free list). -/
structure CleanupState where
  images : List DomImage
  loadedImageIds : List String
deriving DecidableEq

/-- Embeds cleanupOldImages as quoted in the repository documentation of
index.html: it runs only when more than 50 images are in the DOM; every
wrapper whose absolute top lies more than CLEANUP_THRESHOLD pixels above
the current scroll position is removed from the DOM and its identifier
is deleted from STATE.loadedImageIds. -/
def cleanupOldImages (scrollTop : Int) (s : CleanupState) : CleanupState :=
  if s.images.length ≤ 50 then s
  else
    let threshold := scrollTop - CLEANUP_THRESHOLD
    let removed := s.images.filter (fun w => decide (w.absoluteTop < threshold))
    { images := s.images.filter (fun w => decide (threshold ≤ w.absoluteTop)),
      loadedImageIds :=
        s.loadedImageIds.filter (fun i => !(removed.any (fun w => w.imageId == i))) }

/-- Duplicate filtering applied to an adapter response before display,
per the repository documentation of index.html: keep exactly the
incoming identifiers not already in STATE.loadedImageIds. -/
def filterNewImages (loadedImageIds : List String) (incoming : List String) : List String :=
  incoming.filter (fun i => !(loadedImageIds.contains i))

/-- CONFIG.MAX_RETRIES. -/
def MAX_RETRIES : Nat := 3

/-- CONFIG.RETRY_DELAYS, in milliseconds. -/
def RETRY_DELAYS : List Nat := [2000, 4000, 8000]

/-- Modelled from the spec: the Stream Controller state machine of
section 4.3 (the concrete handleIntersection/fetchNextBatch bodies of
index.html are not in the repository snapshot; the design document
records the same control flow: the isLoading flag gates demand signals,
transient errors back off per RETRY_DELAYS up to MAX_RETRIES, rate
limits and an exhausted retry budget set hasError and halt fetching). -/
inductive CtrlState
  | idle
  | fetchInFlight (attempt : Nat)
  | backoff (attempt : Nat) (resumeAt : Nat)
  | halted (reason : String)
deriving DecidableEq

/-- Events consumed by the Stream Controller: a viewport demand signal,
the outcome of the in-flight adapter call (success, transient error at
the given time, explicit rate limit), and the scheduled backoff resume. -/
inductive CtrlEvent
  | demand
  | fetchSuccess
  | fetchTransientError (now : Nat)
  | fetchRateLimited
  | resume
deriving DecidableEq

/-- Result of one controller step: the next state and how many Supply
Source Adapter calls the step issued (0 or 1). -/
structure CtrlStep where
  next : CtrlState
  adapterCalls : Nat
deriving DecidableEq

/-- Modelled from the spec: one transition of the Stream Controller
(section 4.3).  Only idle accepts a demand; a demand in any other state
is ignored.  A transient error escalates through backoff with delays
RETRY_DELAYS until MAX_RETRIES consecutive errors halt the controller;
a rate limit halts it immediately; the scheduled resume re-issues the
attempt; nothing is issued once halted. -/
def ctrlStep : CtrlState → CtrlEvent → CtrlStep
  | CtrlState.idle, CtrlEvent.demand => ⟨CtrlState.fetchInFlight 0, 1⟩
  | s, CtrlEvent.demand => ⟨s, 0⟩
  | CtrlState.fetchInFlight _, CtrlEvent.fetchSuccess => ⟨CtrlState.idle, 0⟩
  | CtrlState.fetchInFlight a, CtrlEvent.fetchTransientError now =>
      if MAX_RETRIES ≤ a + 1 then ⟨CtrlState.halted "retry-budget-exhausted", 0⟩
      else ⟨CtrlState.backoff (a + 1) (now + RETRY_DELAYS.getD a 0), 0⟩
  | CtrlState.fetchInFlight _, CtrlEvent.fetchRateLimited =>
      ⟨CtrlState.halted "rate-limited", 0⟩
  | CtrlState.backoff a _, CtrlEvent.resume => ⟨CtrlState.fetchInFlight a, 1⟩
  | s, _ => ⟨s, 0⟩

/-- Run the controller over an event trace, returning the final state and
the total number of Supply Source Adapter calls issued. -/
def ctrlRun : CtrlState → List CtrlEvent → CtrlState × Nat
  | s, [] => (s, 0)
  | s, e :: es =>
      let st := ctrlStep s e
      let rest := ctrlRun st.next es
      (rest.1, st.adapterCalls + rest.2)

/-- Buffer low-water mark: a refill is started when at most 5 items
remain after a take. -/
def LOW_WATER : Nat := 5

/-- Modelled from the spec: the Prefetch Buffer state of section 4.1
(the concrete CatAPI implementation of index.html is not in the
repository snapshot; the documentation records the cache array and the
isRefilling mutual-exclusion flag).  refillsInFlight counts refills
started and not yet completed, for stating the mutual-exclusion
invariant. -/
structure BufferState where
  cache : List String
  servedIds : List String
  isRefilling : Bool
  refillsInFlight : Nat
deriving DecidableEq

/-- Result of one take call: the descriptors served, the successor
buffer state, and whether this call started a refill. -/
structure TakeResult where
  served : List String
  state : BufferState
  refillStarted : Bool
deriving DecidableEq

/-- Modelled from the spec: PrefetchBuffer.take(n) (section 4.1).  Serve
up to n items from the front without blocking, record every served
identifier in the served-set, and start a background refill only when
the remainder has dropped to the low-water mark and no refill is
already in progress. -/
def takeStep (n : Nat) (s : BufferState) : TakeResult :=
  let served := s.cache.take n
  let remaining := s.cache.drop n
  let servedIds :=
    served.foldl (fun acc i => if acc.contains i then acc else acc ++ [i]) s.servedIds
  if remaining.length ≤ LOW_WATER ∧ s.isRefilling = false then
    ⟨served, ⟨remaining, servedIds, true, s.refillsInFlight + 1⟩, true⟩
  else
    ⟨served, ⟨remaining, servedIds, s.isRefilling, s.refillsInFlight⟩, false⟩

/-- Modelled from the spec: completion of a refill (section 4.1).  The
adapter items that survive the duplicate filter are appended to the
buffer tail; the refill-in-progress flag clears on success and failure
alike (a failed refill completes with no items). -/
def refillDone (items : List String) (s : BufferState) : BufferState :=
  let fresh := items.filter (fun i => !(s.servedIds.contains i) && !(s.cache.contains i))
  ⟨s.cache ++ fresh, s.servedIds, false, s.refillsInFlight - 1⟩

/-- Events observed by the Prefetch Buffer: a take call, or completion of
an outstanding refill delivering the adapter items that survived. -/
inductive BufEvent
  | take (n : Nat)
  | refillComplete (items : List String)
deriving DecidableEq

/-- One buffer step. -/
def bufStep (s : BufferState) : BufEvent → BufferState
  | BufEvent.take n => (takeStep n s).state
  | BufEvent.refillComplete items => refillDone items s

/-- Run the buffer over an event trace. -/
def bufRun : BufferState → List BufEvent → BufferState
  | s, [] => s
  | s, e :: es => bufRun (bufStep s e) es

/-- The freshly created buffer: empty cache, empty served-set, no refill
in progress. -/
def initialBuffer : BufferState := ⟨[], [], false, 0⟩

/-- The controller-state fields recorded by the engine: STATE.isLoading,
STATE.hasError and the current retry attempt count. -/
structure ControllerFlags where
  isLoading : Bool
  hasError : Bool
  retryAttempt : Nat
deriving DecidableEq

/-- A currently displayed unit of the render window: its descriptor
identifier and recorded offset. -/
structure RenderedUnit where
  id : String
  offset : Int
deriving DecidableEq

/-- Result of handling one per-unit render failure: the surviving window,
the controller flags afterwards, and how many adapter calls were issued. -/
structure RenderFailOut where
  window : List RenderedUnit
  flags : ControllerFlags
  adapterCalls : Nat
deriving DecidableEq

/-- Modelled from the spec: per-unit render failure handling (section
4.3; the documentation of index.html records the same behaviour: a
failed image is silently removed from the DOM).  Only the failed unit
leaves the window; the controller flags are untouched and no adapter
call is made. -/
def handleImageLoadFailure (failedId : String) (window : List RenderedUnit)
    (flags : ControllerFlags) : RenderFailOut :=
  ⟨window.filter (fun u => !(u.id == failedId)), flags, 0⟩

/-! ## Theorems -/

/-- A concrete pre-eviction state: 51 rendered images, the last of which
(identifier cat-1, offset 0) has scrolled far behind, and a served-set
holding both identifiers. -/
def c1EvictionExample : CleanupState :=
  ⟨List.replicate 50 ⟨"keep", 5000⟩ ++ [⟨"cat-1", 0⟩], ["keep", "cat-1"]⟩

/-- C1 (counterexample): at scroll position 3000 the unit cat-1 (offset
0, more than 2000 pixels behind) is evicted, and contrary to the claim
its identifier IS removed from the served-identifier set, so a later
adapter response containing cat-1 passes the duplicate filter and is
re-displayed. -/
theorem c1_counterexample :
    (⟨"cat-1", 0⟩ : DomImage) ∈ c1EvictionExample.images
    ∧ "cat-1" ∈ c1EvictionExample.loadedImageIds
    ∧ (⟨"cat-1", 0⟩ : DomImage) ∉ (cleanupOldImages 3000 c1EvictionExample).images
    ∧ "cat-1" ∉ (cleanupOldImages 3000 c1EvictionExample).loadedImageIds
    ∧ filterNewImages (cleanupOldImages 3000 c1EvictionExample).loadedImageIds ["cat-1"]
        = ["cat-1"] := by
  decide

/-- C1 (amended): for every eviction of a rendered unit (cleanup of an
image that has scrolled more than the cleanup threshold behind the
viewport while more than 50 images are rendered), the unit, its window
entry AND its identifier are removed; in particular the identifier does
not stay in the served-identifier set, so a later adapter response
containing it is not filtered out and can be re-displayed. -/
theorem c1_amended (scrollTop : Int) (s : CleanupState) (w : DomImage)
    (hlen : ¬ s.images.length ≤ 50) (hw : w ∈ s.images)
    (hold : w.absoluteTop < scrollTop - CLEANUP_THRESHOLD) :
    w ∉ (cleanupOldImages scrollTop s).images
    ∧ w.imageId ∉ (cleanupOldImages scrollTop s).loadedImageIds := by
  unfold cleanupOldImages
  rw [if_neg hlen]
  constructor
  · intro hmem
    rw [List.mem_filter] at hmem
    have h2 := of_decide_eq_true hmem.2
    omega
  · intro hmem
    rw [List.mem_filter] at hmem
    have h2 := hmem.2
    have hany : (s.images.filter
        (fun v => decide (v.absoluteTop < scrollTop - CLEANUP_THRESHOLD))).any
          (fun v => v.imageId == w.imageId) = true :=
      List.any_eq_true.mpr ⟨w, List.mem_filter.mpr ⟨hw, decide_eq_true hold⟩, by simp⟩
    rw [hany] at h2
    simp at h2

/-- Check of c1_amended at the concrete eviction example. -/
theorem c1_amended_witness :
    (⟨"cat-1", 0⟩ : DomImage) ∉ (cleanupOldImages 3000 c1EvictionExample).images
    ∧ "cat-1" ∉ (cleanupOldImages 3000 c1EvictionExample).loadedImageIds :=
  c1_amended 3000 c1EvictionExample ⟨"cat-1", 0⟩ (by decide) (by decide) (by decide)

/-- C2 (counterexample): the initial-batch-size formula applied to
viewport extent 1400 yields 10, not 14 as the claim states (ceil(1400 /
400) * 2 = 8, and the floor of 10 applies). -/
theorem c2_counterexample :
    INITIAL_BATCH_SIZE 1400 = 10
    ∧ ¬ (INITIAL_BATCH_SIZE 800 = 10 ∧ INITIAL_BATCH_SIZE 1400 = 14) := by
  decide

/-- C2 (amended): the initial batch size computed as
max(ceil(extent / 400) * 2, 10) returns 10 when the extent is 800 and
also 10 when the extent is 1400. -/
theorem c2_amended :
    INITIAL_BATCH_SIZE 800 = 10 ∧ INITIAL_BATCH_SIZE 1400 = 10 := by
  decide

/-- C3: a demand signal arriving while the controller is FetchInFlight
or Backoff is ignored (the state is unchanged) and never causes a
Supply Source Adapter call; moreover no single step ever issues more
than one adapter call, so demand signals are processed strictly one at
a time. -/
theorem c3_demand_ignored_while_busy :
    (∀ a, ctrlStep (CtrlState.fetchInFlight a) CtrlEvent.demand
        = ⟨CtrlState.fetchInFlight a, 0⟩)
    ∧ (∀ a t, ctrlStep (CtrlState.backoff a t) CtrlEvent.demand
        = ⟨CtrlState.backoff a t, 0⟩)
    ∧ (∀ s e, (ctrlStep s e).adapterCalls ≤ 1) := by
  refine ⟨fun a => rfl, fun a t => rfl, ?_⟩
  intro s e
  cases s <;> cases e <;> simp [ctrlStep]
  split <;> simp

/-- C5: with retry delays [2000, 4000, 8000] and maximum attempt count
3, three consecutive transient fetch errors drive the controller from
idle through backoff at 2000 and then 6000 into the halted state, with
exactly three adapter calls issued; once halted, every subsequent event
(in particular every demand signal) performs no adapter call and leaves
the controller halted. -/
theorem c5_halt_after_three_errors :
    ctrlRun CtrlState.idle [CtrlEvent.demand, CtrlEvent.fetchTransientError 0]
      = (CtrlState.backoff 1 2000, 1)
    ∧ ctrlRun CtrlState.idle
        [CtrlEvent.demand, CtrlEvent.fetchTransientError 0, CtrlEvent.resume,
         CtrlEvent.fetchTransientError 2000]
      = (CtrlState.backoff 2 6000, 2)
    ∧ ctrlRun CtrlState.idle
        [CtrlEvent.demand, CtrlEvent.fetchTransientError 0, CtrlEvent.resume,
         CtrlEvent.fetchTransientError 2000, CtrlEvent.resume,
         CtrlEvent.fetchTransientError 6000]
      = (CtrlState.halted "retry-budget-exhausted", 3)
    ∧ (∀ r e, ctrlStep (CtrlState.halted r) e = ⟨CtrlState.halted r, 0⟩)
    ∧ RETRY_DELAYS = [2000, 4000, 8000] ∧ MAX_RETRIES = 3 := by
  refine ⟨by decide, by decide, by decide, ?_, rfl, rfl⟩
  intro r e
  cases e <;> rfl

/-- One buffer step preserves the coupling between the refill flag and
the number of outstanding refills. -/
theorem bufStep_inv (s : BufferState) (e : BufEvent)
    (h : s.refillsInFlight = if s.isRefilling then 1 else 0) :
    (bufStep s e).refillsInFlight = if (bufStep s e).isRefilling then 1 else 0 := by
  cases e with
  | take n =>
      simp only [bufStep, takeStep]
      split
      · rename_i hc
        rw [hc.2] at h
        simp at h
        simp [h]
      · simpa using h
  | refillComplete items =>
      simp only [bufStep, refillDone]
      cases hb : s.isRefilling <;> rw [hb] at h <;> simp at h ⊢ <;> omega

/-- The refill coupling invariant holds along every buffer trace. -/
theorem bufRun_inv (events : List BufEvent) : ∀ s : BufferState,
    s.refillsInFlight = (if s.isRefilling then 1 else 0) →
    (bufRun s events).refillsInFlight
      = if (bufRun s events).isRefilling then 1 else 0 := by
  induction events with
  | nil => intro s h; exact h
  | cons e es ih => intro s h; exact ih _ (bufStep_inv s e h)

/-- C4: the refill-in-progress flag is a mutual-exclusion gate.  A take
call arriving while a refill is already in progress starts no
additional refill and is served from the current buffer contents (the
front of the cache), and along every event trace from the initial
buffer at most one refill is outstanding at any time. -/
theorem c4_refill_mutual_exclusion :
    (∀ n cache servedIds k,
        (takeStep n ⟨cache, servedIds, true, k⟩).refillStarted = false
        ∧ (takeStep n ⟨cache, servedIds, true, k⟩).served = cache.take n
        ∧ (takeStep n ⟨cache, servedIds, true, k⟩).state.refillsInFlight = k)
    ∧ (∀ events, (bufRun initialBuffer events).refillsInFlight ≤ 1) := by
  constructor
  · intro n cache servedIds k
    refine ⟨?_, ?_, ?_⟩ <;> simp [takeStep]
  · intro events
    have h := bufRun_inv events initialBuffer rfl
    rw [h]
    split <;> omega

/-- C8: when an individual descriptor fails to render, only that unit is
removed from the window (every unit with a different identifier is
kept), the controller flags (isLoading, hasError, retry attempt count)
are unchanged, and no adapter call is issued, so the failure does not
count against the fetch backoff schedule. -/
theorem c8_render_failure_local (failedId : String) (window : List RenderedUnit)
    (flags : ControllerFlags) :
    (handleImageLoadFailure failedId window flags).flags = flags
    ∧ (∀ u, u ∈ (handleImageLoadFailure failedId window flags).window → u.id ≠ failedId)
    ∧ (∀ u, u ∈ window → u.id ≠ failedId →
        u ∈ (handleImageLoadFailure failedId window flags).window)
    ∧ (handleImageLoadFailure failedId window flags).adapterCalls = 0 := by
  refine ⟨rfl, ?_, ?_, rfl⟩
  · intro u hu
    simp [handleImageLoadFailure, List.mem_filter] at hu
    exact hu.2
  · intro u hu hne
    simp [handleImageLoadFailure, List.mem_filter]
    exact ⟨hu, hne⟩

/-- Check of c8_render_failure_local at a concrete window. -/
theorem c8_render_failure_local_witness :
    (handleImageLoadFailure "cat-x"
        [⟨"cat-x", 0⟩, ⟨"cat-y", 400⟩] ⟨false, false, 0⟩).flags = ⟨false, false, 0⟩
    ∧ (⟨"cat-y", 400⟩ : RenderedUnit)
        ∈ (handleImageLoadFailure "cat-x"
            [⟨"cat-x", 0⟩, ⟨"cat-y", 400⟩] ⟨false, false, 0⟩).window
    ∧ (handleImageLoadFailure "cat-x"
        [⟨"cat-x", 0⟩, ⟨"cat-y", 400⟩] ⟨false, false, 0⟩).adapterCalls = 0 :=
  ⟨(c8_render_failure_local "cat-x" [⟨"cat-x", 0⟩, ⟨"cat-y", 400⟩] ⟨false, false, 0⟩).1,
   (c8_render_failure_local "cat-x" [⟨"cat-x", 0⟩, ⟨"cat-y", 400⟩] ⟨false, false, 0⟩).2.2.1
     ⟨"cat-y", 400⟩ (by decide) (by decide),
   (c8_render_failure_local "cat-x" [⟨"cat-x", 0⟩, ⟨"cat-y", 400⟩] ⟨false, false, 0⟩).2.2.2⟩

/-- C6: whenever the upstream fetch resolves with HTTP status 429 (on
the path that reaches the fetch: a GET whose computed limit is at least
1), onRequest returns status 429, a body naming the rate-limit error,
and a Retry-After header equal to the upstream Retry-After value when
present and 60 otherwise. -/
theorem c6_rate_limited_response (req : Request) (r : UpstreamResponse) (v : Int)
    (hm : req.method = "GET")
    (hv : parseIntJS (limitOrDefault req.limitParam) = some v)
    (hp : 1 ≤ min v 100)
    (h429 : r.status = 429) :
    (onRequest req (UpstreamResult.ok r)).response.status = 429
    ∧ (onRequest req (UpstreamResult.ok r)).response.body
        = Body.obj [("error", "Rate limit exceeded"),
                    ("message", "Too many requests to TheCatAPI. Please try again later.")]
    ∧ ("Retry-After", r.retryAfter.getD "60")
        ∈ (onRequest req (UpstreamResult.ok r)).response.headers
    ∧ (onRequest req (UpstreamResult.ok r)).upstreamLimit = some (min v 100) := by
  have hok : respOk r = false := by simp [respOk, h429]
  have hlim : computeLimit req.limitParam = some (min v 100) := by
    simp [computeLimit, hv]
  have hnl : ¬ min v 100 < 1 := by omega
  simp [onRequest, hm, hlim, hnl, hok, h429, CORS_HEADERS]

/-- Check of c6_rate_limited_response at a concrete GET request and a
concrete 429 upstream response carrying Retry-After 120. -/
theorem c6_rate_limited_response_witness :
    (onRequest ⟨"GET", none⟩
        (UpstreamResult.ok ⟨429, some "120", "", Except.ok "[]"⟩)).response.status = 429
    ∧ (onRequest ⟨"GET", none⟩
        (UpstreamResult.ok ⟨429, some "120", "", Except.ok "[]"⟩)).response.body
        = Body.obj [("error", "Rate limit exceeded"),
                    ("message", "Too many requests to TheCatAPI. Please try again later.")]
    ∧ ("Retry-After", (some "120").getD "60")
        ∈ (onRequest ⟨"GET", none⟩
            (UpstreamResult.ok ⟨429, some "120", "", Except.ok "[]"⟩)).response.headers
    ∧ (onRequest ⟨"GET", none⟩
        (UpstreamResult.ok ⟨429, some "120", "", Except.ok "[]"⟩)).upstreamLimit
        = some (min 10 100) :=
  c6_rate_limited_response ⟨"GET", none⟩ ⟨429, some "120", "", Except.ok "[]"⟩ 10
    rfl (by decide) (by decide) rfl

/-- C7: for a GET request, an absent limit parameter defaults to 10 and
the upstream fetch is performed with limit 10; when parsing the
(possibly defaulted) parameter gives NaN, or the capped value is below
1, onRequest answers 400 with error Invalid limit parameter and
performs no upstream fetch; otherwise the count forwarded upstream is
exactly min(parsed value, 100), a positive integer. -/
theorem c7_limit_validation :
    (∀ (req : Request) (up : UpstreamResult), req.method = "GET" →
        req.limitParam = none → (onRequest req up).upstreamLimit = some 10)
    ∧ (∀ (req : Request) (up : UpstreamResult), req.method = "GET" →
        parseIntJS (limitOrDefault req.limitParam) = none →
        (onRequest req up).response.status = 400
        ∧ (onRequest req up).response.body = Body.obj [("error", "Invalid limit parameter")]
        ∧ (onRequest req up).upstreamLimit = none)
    ∧ (∀ (req : Request) (up : UpstreamResult) (v : Int), req.method = "GET" →
        parseIntJS (limitOrDefault req.limitParam) = some v → min v 100 < 1 →
        (onRequest req up).response.status = 400
        ∧ (onRequest req up).response.body = Body.obj [("error", "Invalid limit parameter")]
        ∧ (onRequest req up).upstreamLimit = none)
    ∧ (∀ (req : Request) (up : UpstreamResult) (v : Int), req.method = "GET" →
        parseIntJS (limitOrDefault req.limitParam) = some v → 1 ≤ min v 100 →
        (onRequest req up).upstreamLimit = some (min v 100)) := by
  refine ⟨?_, ?_, ?_, ?_⟩
  · intro req up hm hp
    have hlim : computeLimit req.limitParam = some 10 := by
      rw [hp]
      decide
    rcases up with r | msg
    · by_cases hok : respOk r
      · rcases hj : r.jsonResult with cats | msg <;>
          simp [onRequest, hm, hlim, hok, hj]
      · by_cases h4 : r.status = 429 <;>
          simp [onRequest, hm, hlim, hok, h4]
    · simp [onRequest, hm, hlim]
  · intro req up hm hp
    have hlim : computeLimit req.limitParam = none := by
      simp [computeLimit, hp]
    simp [onRequest, hm, hlim]
  · intro req up v hm hp hsmall
    have hlim : computeLimit req.limitParam = some (min v 100) := by
      simp [computeLimit, hp]
    simp [onRequest, hm, hlim, hsmall]
  · intro req up v hm hp hpos
    have hlim : computeLimit req.limitParam = some (min v 100) := by
      simp [computeLimit, hp]
    have hnl : ¬ min v 100 < 1 := by omega
    rcases up with r | msg
    · by_cases hok : respOk r
      · rcases hj : r.jsonResult with cats | msg <;>
          simp [onRequest, hm, hlim, hnl, hok, hj]
      · by_cases h4 : r.status = 429 <;>
          simp [onRequest, hm, hlim, hnl, hok, h4]
    · simp [onRequest, hm, hlim, hnl]

/-- Check of c7_limit_validation: the default at an absent parameter, the
rejection of a non-numeric and of a non-positive limit, and the capped
forwarding of limit 250 as 100. -/
theorem c7_limit_validation_witness :
    (onRequest ⟨"GET", none⟩ (UpstreamResult.netError "down")).upstreamLimit = some 10
    ∧ (onRequest ⟨"GET", some "abc"⟩ (UpstreamResult.netError "down")).response.status = 400
    ∧ (onRequest ⟨"GET", some "0"⟩ (UpstreamResult.netError "down")).upstreamLimit = none
    ∧ (onRequest ⟨"GET", some "250"⟩ (UpstreamResult.netError "down")).upstreamLimit
        = some (min 250 100) :=
  ⟨c7_limit_validation.1 ⟨"GET", none⟩ _ rfl rfl,
   (c7_limit_validation.2.1 ⟨"GET", some "abc"⟩ (UpstreamResult.netError "down")
      rfl (by decide)).1,
   (c7_limit_validation.2.2.1 ⟨"GET", some "0"⟩ (UpstreamResult.netError "down") 0
      rfl (by decide) (by decide)).2.2,
   c7_limit_validation.2.2.2 ⟨"GET", some "250"⟩ (UpstreamResult.netError "down") 250
      rfl (by decide) (by decide)⟩

/-- C9: onRequest is total: every outcome carries the CORS header
Access-Control-Allow-Origin valued * and one of the statuses 200, 204,
400, 405, 429, 500; a rejected upstream fetch, a non-OK non-429
upstream status, and an upstream body that fails JSON parsing are all
caught and mapped to a status-500 JSON error body. -/
theorem c9_total_with_cors :
    (∀ (req : Request) (up : UpstreamResult),
        ("Access-Control-Allow-Origin", "*") ∈ (onRequest req up).response.headers)
    ∧ (∀ (req : Request) (up : UpstreamResult),
        (onRequest req up).response.status ∈ ([200, 204, 400, 405, 429, 500] : List Nat))
    ∧ (∀ (req : Request) (msg : String) (v : Int), req.method = "GET" →
        parseIntJS (limitOrDefault req.limitParam) = some v → 1 ≤ min v 100 →
        (onRequest req (UpstreamResult.netError msg)).response.status = 500
        ∧ (onRequest req (UpstreamResult.netError msg)).response.body
            = Body.obj [("error", "Failed to fetch cat images"), ("message", msg)])
    ∧ (∀ (req : Request) (r : UpstreamResponse) (v : Int), req.method = "GET" →
        parseIntJS (limitOrDefault req.limitParam) = some v → 1 ≤ min v 100 →
        respOk r = false → r.status ≠ 429 →
        (onRequest req (UpstreamResult.ok r)).response.status = 500)
    ∧ (∀ (req : Request) (r : UpstreamResponse) (v : Int) (msg : String), req.method = "GET" →
        parseIntJS (limitOrDefault req.limitParam) = some v → 1 ≤ min v 100 →
        respOk r = true → r.jsonResult = Except.error msg →
        (onRequest req (UpstreamResult.ok r)).response.status = 500
        ∧ (onRequest req (UpstreamResult.ok r)).response.body
            = Body.obj [("error", "Failed to fetch cat images"), ("message", msg)]) := by
  refine ⟨?_, ?_, ?_, ?_, ?_⟩
  · intro req up
    unfold onRequest
    repeat' split
    all_goals simp [CORS_HEADERS]
  · intro req up
    unfold onRequest
    repeat' split
    all_goals simp
  · intro req msg v hm hp hpos
    have hlim : computeLimit req.limitParam = some (min v 100) := by
      simp [computeLimit, hp]
    have hnl : ¬ min v 100 < 1 := by omega
    simp [onRequest, hm, hlim, hnl]
  · intro req r v hm hp hpos hok h4
    have hlim : computeLimit req.limitParam = some (min v 100) := by
      simp [computeLimit, hp]
    have hnl : ¬ min v 100 < 1 := by omega
    simp [onRequest, hm, hlim, hnl, hok, h4]
  · intro req r v msg hm hp hpos hok hj
    have hlim : computeLimit req.limitParam = some (min v 100) := by
      simp [computeLimit, hp]
    have hnl : ¬ min v 100 < 1 := by omega
    simp [onRequest, hm, hlim, hnl, hok, hj]

/-- Check of c9_total_with_cors at concrete inputs: a network error, an
upstream 503, and an upstream 200 whose body fails to parse, all become
status 500. -/
theorem c9_total_with_cors_witness :
    (onRequest ⟨"GET", none⟩ (UpstreamResult.netError "boom")).response.status = 500
    ∧ (onRequest ⟨"GET", none⟩
        (UpstreamResult.ok ⟨503, none, "oops", Except.error "x"⟩)).response.status = 500
    ∧ (onRequest ⟨"GET", none⟩
        (UpstreamResult.ok ⟨200, none, "", Except.error "bad json"⟩)).response.status = 500 :=
  ⟨(c9_total_with_cors.2.2.1 ⟨"GET", none⟩ "boom" 10 rfl (by decide) (by decide)).1,
   c9_total_with_cors.2.2.2.1 ⟨"GET", none⟩ ⟨503, none, "oops", Except.error "x"⟩ 10
     rfl (by decide) (by decide) (by decide) (by decide),
   (c9_total_with_cors.2.2.2.2 ⟨"GET", none⟩ ⟨200, none, "", Except.error "bad json"⟩ 10
     "bad json" rfl (by decide) (by decide) (by decide) rfl).1⟩

/-- C10: an OPTIONS request gets status 204 with an empty body, and a
request whose method is neither GET nor OPTIONS gets status 405 with
error Method not allowed; in both cases no upstream fetch is performed. -/
theorem c10_method_gate :
    (∀ (req : Request) (up : UpstreamResult), req.method = "OPTIONS" →
        onRequest req up = ⟨⟨204, Body.empty, CORS_HEADERS⟩, none⟩)
    ∧ (∀ (req : Request) (up : UpstreamResult), req.method ≠ "OPTIONS" →
        req.method ≠ "GET" →
        onRequest req up
          = ⟨⟨405, Body.obj [("error", "Method not allowed")], CORS_HEADERS⟩, none⟩) := by
  constructor
  · intro req up h
    simp [onRequest, h]
  · intro req up h1 h2
    simp [onRequest, h1, h2]

/-- Check of c10_method_gate at an OPTIONS request and a POST request. -/
theorem c10_method_gate_witness :
    onRequest ⟨"OPTIONS", none⟩ (UpstreamResult.netError "x")
      = ⟨⟨204, Body.empty, CORS_HEADERS⟩, none⟩
    ∧ onRequest ⟨"POST", none⟩ (UpstreamResult.netError "x")
      = ⟨⟨405, Body.obj [("error", "Method not allowed")], CORS_HEADERS⟩, none⟩ :=
  ⟨c10_method_gate.1 ⟨"OPTIONS", none⟩ _ rfl,
   c10_method_gate.2 ⟨"POST", none⟩ _ (by decide) (by decide)⟩

end EndlessMew
